import Mathlib

/-!
Verification development for the FilFinder repository (fil_finder/filfind_class.py).

The development shallowly embeds the parts of the `fil_finder_2D` class that the
checked properties are about:

* `resultsStep` / `results`  — the per-filament aggregation loop of
  `fil_finder_2D.results` (filfind_class.py lines 478-493);
* `fil_finder_init`          — the constructor `fil_finder_2D.__init__`
  (lines 94-129): shape validation, region slicing (shape level), in-place
  NaN cleaning of a caller-supplied mask, and the distance/pixel-unit branch;
* `create_mask` / `medskel`  — the control flow of the two methods that can
  prompt for interactive input (lines 200-246 and 282-294);
* `find_widths` / `av_widths` — the state update of `fil_finder_2D.find_widths`
  and the local fallback-width computation (lines 445-462).

Numeric values are modelled over ℚ.  The two constructor quantities whose
Python values are irrational multiples (the physical-mode image scale
`CDELT2*(pi/180)*distance` and the physical-mode beam width, which involve
pi and sqrt(8 ln 2)) are kept in symbolic form as inductive values carrying
their rational inputs; no claim inspects their numeric magnitude.
-/

/-- A Python runtime value as it can appear in the `self.widths` list:
a float, an int, or a string (failed fits are denoted by a string, see the
docstring of `fil_finder_2D.results`).  `isinstance(w, float)` corresponds to
matching the `float` constructor. -/
inductive PyVal where
  | float (x : ℚ)
  | int (k : ℤ)
  | str (s : String)
deriving DecidableEq

/-- The string appended by `results` when a numeric width fails the
`length > width` sanity check (filfind_class.py line 487). -/
def fitFailStr : String := "Fit Fail"

/-- One iteration of the loop in `fil_finder_2D.results`
(filfind_class.py lines 480-490):

    if isinstance(self.widths[i], float):
        if self.lengths[i] > self.widths[i]:
            overall_lengths.append(self.lengths[i] + self.widths[i])
            overall_widths.append(self.widths[i])
        else:
            overall_lengths.append(self.lengths[i])
            overall_widths.append("Fit Fail")
    else:
        overall_lengths.append(self.lengths[i])
        overall_widths.append(self.widths[i])
-/
def resultsStep (l : ℚ) (w : PyVal) : ℚ × PyVal :=
  match w with
  | PyVal.float x => if x < l then (l + x, PyVal.float x) else (l, PyVal.str fitFailStr)
  | _ => (l, w)

/-- The whole `fil_finder_2D.results` loop (lines 478-493).  The loop runs
`i` over `range(self.number_of_filaments)` and appends exactly one entry per
index to each of `overall_lengths` and `overall_widths`; the Python lists
`self.lengths` and `self.widths` are modelled as index functions. -/
def results (n : ℕ) (lengths : ℕ → ℚ) (widths : ℕ → PyVal) : List ℚ × List PyVal :=
  ((List.range n).map (fun i => (resultsStep (lengths i) (widths i)).1),
   (List.range n).map (fun i => (resultsStep (lengths i) (widths i)).2))

/-- Modelled from the spec: the output contract of `gauss_width` (width.py,
which is absent from src/).  Per spec section 4.7 and the `results` docstring,
each reported width is either a fitted float or a string marking a failed fit. -/
def WidthFitOutput (w : PyVal) : Prop :=
  (∃ x, w = PyVal.float x) ∨ (∃ s, w = PyVal.str s)

lemma results_entry_fst (n : ℕ) (lengths : ℕ → ℚ) (widths : ℕ → PyVal)
    (i : ℕ) (hi : i < n) (d : ℚ) :
    ((results n lengths widths).1).getD i d = (resultsStep (lengths i) (widths i)).1 := by
  unfold results
  simp [List.getD_eq_getElem?_getD, List.getElem?_map, List.getElem?_range hi]

lemma results_entry_snd (n : ℕ) (lengths : ℕ → ℚ) (widths : ℕ → PyVal)
    (i : ℕ) (hi : i < n) (d : PyVal) :
    ((results n lengths widths).2).getD i d = (resultsStep (lengths i) (widths i)).2 := by
  unfold results
  simp [List.getD_eq_getElem?_getD, List.getElem?_map, List.getElem?_range hi]

/-- C1: for every filament record processed by `fil_finder_2D.results`, exactly
one of three transformations applies: a float width with length strictly greater
than width adds the width to the length and keeps the width; a float width with
length at most the width keeps the length and replaces the width by the
failed-fit sentinel; a sentinel (string) width passes both through unchanged.
The final two conjuncts state that the guards are exhaustive and mutually
exclusive on the width-fit output domain. -/
theorem results_three_way (l : ℚ) (w : PyVal) (h : WidthFitOutput w) :
    (∀ x, w = PyVal.float x → x < l → resultsStep l w = (l + x, PyVal.float x)) ∧
    (∀ x, w = PyVal.float x → l ≤ x → resultsStep l w = (l, PyVal.str fitFailStr)) ∧
    (∀ s, w = PyVal.str s → resultsStep l w = (l, w)) ∧
    ((∃ x, w = PyVal.float x) ∨ (∃ s, w = PyVal.str s)) ∧
    ¬((∃ x, w = PyVal.float x) ∧ (∃ s, w = PyVal.str s)) := by
  refine ⟨?_, ?_, ?_, h, ?_⟩
  · rintro x rfl hx
    simp [resultsStep, hx]
  · rintro x rfl hx
    simp [resultsStep, not_lt.mpr hx]
  · rintro s rfl
    rfl
  · rintro ⟨⟨x, hx⟩, ⟨s, hs⟩⟩
    subst hx
    cases hs

theorem results_three_way_witness :
    (∀ x, PyVal.float 2 = PyVal.float x → x < (5:ℚ) →
        resultsStep 5 (PyVal.float 2) = (5 + x, PyVal.float x)) ∧
    (∀ x, PyVal.float 2 = PyVal.float x → (5:ℚ) ≤ x →
        resultsStep 5 (PyVal.float 2) = (5, PyVal.str fitFailStr)) ∧
    (∀ s, PyVal.float 2 = PyVal.str s →
        resultsStep 5 (PyVal.float 2) = (5, PyVal.float 2)) ∧
    ((∃ x, PyVal.float 2 = PyVal.float x) ∨ (∃ s, PyVal.float 2 = PyVal.str s)) ∧
    ¬((∃ x, PyVal.float 2 = PyVal.float x) ∧ (∃ s, PyVal.float 2 = PyVal.str s)) :=
  results_three_way 5 (PyVal.float 2) (Or.inl ⟨2, rfl⟩)

/-- C2: after `fil_finder_2D.results`, a record whose width is still numeric
satisfies width at most (reported length minus width), and its pre-correction
length strictly exceeded the width; every other record carries a string
fit-failure marker as its width, and its reported length equals the
pre-aggregation length.  Width values range over the spec-modelled
`gauss_width` output contract. -/
theorem results_width_invariant (n : ℕ) (lengths : ℕ → ℚ) (widths : ℕ → PyVal)
    (hW : ∀ i, WidthFitOutput (widths i)) (i : ℕ) (hi : i < n) :
    (∀ x, ((results n lengths widths).2).getD i (PyVal.str fitFailStr) = PyVal.float x →
        x ≤ ((results n lengths widths).1).getD i 0 - x ∧ x < lengths i) ∧
    ((∀ x, ((results n lengths widths).2).getD i (PyVal.str fitFailStr) ≠ PyVal.float x) →
        (∃ s, ((results n lengths widths).2).getD i (PyVal.str fitFailStr) = PyVal.str s) ∧
        ((results n lengths widths).1).getD i 0 = lengths i) := by
  rw [results_entry_fst n lengths widths i hi 0,
      results_entry_snd n lengths widths i hi (PyVal.str fitFailStr)]
  rcases hW i with ⟨x, hx⟩ | ⟨s, hs⟩
  · rw [hx]
    by_cases hlt : x < lengths i
    · have hstep : resultsStep (lengths i) (PyVal.float x) = (lengths i + x, PyVal.float x) := by
        simp [resultsStep, hlt]
      rw [hstep]
      constructor
      · intro y hy
        injection hy with hy
        subst hy
        refine ⟨?_, hlt⟩
        simp only [Prod.fst]
        linarith
      · intro hne
        exact absurd rfl (hne x)
    · have hstep : resultsStep (lengths i) (PyVal.float x) = (lengths i, PyVal.str fitFailStr) := by
        simp [resultsStep, hlt]
      rw [hstep]
      constructor
      · intro y hy
        cases hy
      · intro _
        exact ⟨⟨fitFailStr, rfl⟩, rfl⟩
  · rw [hs]
    constructor
    · intro y hy
      cases hy
    · intro _
      exact ⟨⟨s, rfl⟩, rfl⟩

theorem results_width_invariant_witness :
    (2:ℚ) < 5 ∧
    (2:ℚ) ≤ ((results 1 (fun _ => (5:ℚ)) (fun _ => PyVal.float 2)).1).getD 0 0 - 2 := by
  have h := results_width_invariant 1 (fun _ => (5:ℚ)) (fun _ => PyVal.float 2)
      (fun _ => Or.inl ⟨2, rfl⟩) 0 (by norm_num)
  have hsnd : ((results 1 (fun _ => (5:ℚ)) (fun _ => PyVal.float 2)).2).getD 0
      (PyVal.str fitFailStr) = PyVal.float 2 := by
    rw [results_entry_snd 1 _ _ 0 (by norm_num)]
    norm_num [resultsStep]
  have h2 := h.1 2 hsnd
  exact ⟨h2.2, h2.1⟩

/-- C9: the aggregation step tests the width with a runtime float-type check
only; a width that is numeric but not a Python float (an integer) takes the
else branch of `results`, so both the length and the width pass through
unchanged for every length value, never entering the length-correction
branch. -/
theorem results_int_passthrough (l : ℚ) (k : ℤ) :
    resultsStep l (PyVal.int k) = (l, PyVal.int k) := rfl

lemma resultsStep_fst_cases (l : ℚ) (w : PyVal) :
    ((∀ x, w ≠ PyVal.float x) → (resultsStep l w).1 = l) ∧
    (∀ x, w = PyVal.float x → l ≤ x → (resultsStep l w).1 = l) ∧
    (∀ x, w = PyVal.float x → x < l → (resultsStep l w).1 = l + x) := by
  cases w with
  | float x =>
    refine ⟨fun hne => absurd rfl (hne x), ?_, ?_⟩
    · intro y hy hle
      injection hy with hy
      subst hy
      simp [resultsStep, not_lt.mpr hle]
    · intro y hy hlt
      injection hy with hy
      subst hy
      simp [resultsStep, hlt]
  | int k =>
    refine ⟨fun _ => rfl, ?_, ?_⟩
    · intro y hy
      cases hy
    · intro y hy
      cases hy
  | str s =>
    refine ⟨fun _ => rfl, ?_, ?_⟩
    · intro y hy
      cases hy
    · intro y hy
      cases hy

/-- C10: `fil_finder_2D.results` never decreases a length (given the
spec-modelled contract that fitted float widths are positive): the reported
length equals the input length when the width is not a float or when
length is at most the width, and equals length plus width (an increase)
otherwise; both output lists have exactly one entry per filament. -/
theorem results_length_monotone (n : ℕ) (lengths : ℕ → ℚ) (widths : ℕ → PyVal)
    (hpos : ∀ i x, widths i = PyVal.float x → 0 < x) :
    (results n lengths widths).1.length = n ∧
    (results n lengths widths).2.length = n ∧
    ∀ i, i < n →
      lengths i ≤ ((results n lengths widths).1).getD i 0 ∧
      ((∀ x, widths i ≠ PyVal.float x) →
          ((results n lengths widths).1).getD i 0 = lengths i) ∧
      (∀ x, widths i = PyVal.float x → lengths i ≤ x →
          ((results n lengths widths).1).getD i 0 = lengths i) ∧
      (∀ x, widths i = PyVal.float x → x < lengths i →
          ((results n lengths widths).1).getD i 0 = lengths i + x) := by
  refine ⟨by simp [results], by simp [results], ?_⟩
  intro i hi
  rw [results_entry_fst n lengths widths i hi 0]
  obtain ⟨h1, h2, h3⟩ := resultsStep_fst_cases (lengths i) (widths i)
  refine ⟨?_, h1, h2, h3⟩
  by_cases hfl : ∃ x, widths i = PyVal.float x
  · obtain ⟨x, hx⟩ := hfl
    rcases lt_or_le x (lengths i) with hlt | hle
    · rw [h3 x hx hlt]
      have := hpos i x hx
      linarith
    · rw [h2 x hx hle]
  · push_neg at hfl
    rw [h1 hfl]

theorem results_length_monotone_witness :
    ((results 2 (fun _ => (5:ℚ)) (fun _ => PyVal.float 2)).1).getD 0 0 = 7 ∧
    (results 2 (fun _ => (5:ℚ)) (fun _ => PyVal.float 2)).1.length = 2 := by
  have h := results_length_monotone 2 (fun _ => (5:ℚ)) (fun _ => PyVal.float 2)
      (fun _ x hx => by injection hx with hx; rw [← hx]; norm_num)
  refine ⟨?_, h.1⟩
  have h0 := (h.2.2 0 (by norm_num)).2.2.2 2 rfl (by norm_num)
  rw [h0]
  norm_num

/-- An entry of a caller-supplied numpy mask array: a float that is either NaN
or an ordinary value.  The boolean test `np.isnan(mask)` selects exactly the
`nan` constructor. -/
inductive MVal where
  | nan
  | val (q : ℚ)
deriving DecidableEq

/-- The effect of the in-place fancy assignment `mask[np.isnan(mask)] = 0.0`
(filfind_class.py line 111) on one array entry. -/
def nanToZero : MVal → MVal
  | MVal.nan => MVal.val 0
  | v => v

/-- Failure modes of `fil_finder_2D.__init__`:
`inputShape` is the raise at line 96 for a non-2D image (the spec calls it an
InputShapeError; the Python code builds a TypeError there, and the misplaced
`%` operand in that line itself raises a TypeError while formatting, so the
construction fails with a TypeError either way);
`keyError` is a failed dictionary access `hdr[key]`;
`zeroDivision` is `(hdr["CDELT2"]*3600)**(-1)` when the scale value is zero
(line 117). -/
inductive FilErr where
  | inputShape (ndim : ℕ)
  | keyError (key : String)
  | zeroDivision
deriving DecidableEq

/-- The header key holding the angular pixel scale in degrees. -/
def CDELT2key : String := "CDELT2"

/-- A header key unrelated to the pixel scale, for concrete examples. -/
def naxis1key : String := "NAXIS1"

/-- Value of `self.imgscale` (line 116 and line 120): the pixel-unit constant
1.0, or the physical scale CDELT2·(π/180)·distance in parsecs, kept in
symbolic form since it is an irrational multiple of its rational inputs. -/
inductive ImgScale where
  | pixel
  | phys (cdelt2 distance : ℚ)
deriving DecidableEq

/-- Value of `self.beamwidth` (line 117 and line 121): in pixel-unit mode the
exact rational beamwidth·(CDELT2·3600)⁻¹, in physical mode the symbolic
(beamwidth/√(8 ln 2))·(2π/206265)·distance. -/
inductive BeamVal where
  | pix (q : ℚ)
  | phys (beamwidth distance : ℚ)
deriving DecidableEq

/-- Length of the numpy slice `slice(a, b)` of an axis of size `dim`
(basic slicing clamps out-of-range bounds). -/
def sliceLen (a b dim : ℕ) : ℕ := min b dim - min a dim

/-- Shape of `self.image` after lines 97-102: the input image unchanged, or
the `region_slice = [xmin, xmax, ymin, ymax]` cutout padded with one pixel on
every side by `np.pad(image[slices], 1, padwithzeros)`.  Only the shape of the
image is modelled; no checked property reads the pixel data. -/
def regionShape (shape : List ℕ) (rs : Option (ℕ × ℕ × ℕ × ℕ)) : List ℕ :=
  match rs, shape with
  | some (x0, x1, y0, y1), [a, b] => [sliceLen x0 x1 a + 2, sliceLen y0 y1 b + 2]
  | _, _ => shape

/-- The attributes assigned by `fil_finder_2D.__init__` (lines 94-129).  The
fields initialised to None at lines 131-147 carry no information and are left
out. -/
structure InitState where
  image_shape : List ℕ
  header : List (String × ℚ)
  skel_thresh : ℚ
  branch_thresh : ℚ
  pad_size : ℕ
  mask : Option (List MVal)
  imgscale : ImgScale
  beamwidth : BeamVal
  pixel_unit_flag : Bool
  glob_thresh : Option ℚ
  adapt_thresh : Option ℚ
  flatten_thresh : ℚ
  smooth_size : Option ℚ
  size_thresh : Option ℚ
deriving DecidableEq

/-- Outcome of `__init__`: the constructed object (or the exception), together
with the contents of the caller-supplied mask array after the call returns.
The fancy assignment at line 111 mutates the caller's array in place before
anything can fail in the distance branch, and `self.mask = mask` stores a
reference to that same array, so the caller-visible contents are reported on
every path that passes the shape check. -/
structure InitRet where
  result : Except FilErr InitState
  callerMask : Option (List MVal)

/-- Shallow embedding of `fil_finder_2D.__init__` (filfind_class.py lines
94-129), in source order: the image-rank check (lines 94-96), region slicing
(97-102), plain attribute assignments (104-107), in-place NaN cleaning of a
supplied mask (109-112), and the distance branch (114-122) which resolves
CDELT2 from the header in both modes.  The remaining keyword arguments are
stored unchanged (125-129). -/
def fil_finder_init (image_shape : List ℕ) (hdr : List (String × ℚ))
    (beamwidth skel_thresh branch_thresh : ℚ) (pad_size : ℕ) (flatten_thresh : ℚ)
    (smooth_size size_thresh glob_thresh adapt_thresh : Option ℚ)
    (distance : Option ℚ) (region_slice : Option (ℕ × ℕ × ℕ × ℕ))
    (mask : Option (List MVal)) : InitRet :=
  if image_shape.length ≠ 2 then
    { result := Except.error (FilErr.inputShape image_shape.length), callerMask := mask }
  else
    match distance with
    | none =>
      match List.lookup CDELT2key hdr with
      | none =>
        { result := Except.error (FilErr.keyError CDELT2key),
          callerMask := mask.map (List.map nanToZero) }
      | some c =>
        if c * 3600 = 0 then
          { result := Except.error FilErr.zeroDivision,
            callerMask := mask.map (List.map nanToZero) }
        else
          { result := Except.ok
              { image_shape := regionShape image_shape region_slice, header := hdr,
                skel_thresh := skel_thresh, branch_thresh := branch_thresh,
                pad_size := pad_size, mask := mask.map (List.map nanToZero),
                imgscale := ImgScale.pixel,
                beamwidth := BeamVal.pix (beamwidth / (c * 3600)),
                pixel_unit_flag := true, glob_thresh := glob_thresh,
                adapt_thresh := adapt_thresh, flatten_thresh := flatten_thresh,
                smooth_size := smooth_size, size_thresh := size_thresh },
            callerMask := mask.map (List.map nanToZero) }
    | some d =>
      match List.lookup CDELT2key hdr with
      | none =>
        { result := Except.error (FilErr.keyError CDELT2key),
          callerMask := mask.map (List.map nanToZero) }
      | some c =>
        { result := Except.ok
            { image_shape := regionShape image_shape region_slice, header := hdr,
              skel_thresh := skel_thresh, branch_thresh := branch_thresh,
              pad_size := pad_size, mask := mask.map (List.map nanToZero),
              imgscale := ImgScale.phys c d,
              beamwidth := BeamVal.phys beamwidth d,
              pixel_unit_flag := false, glob_thresh := glob_thresh,
              adapt_thresh := adapt_thresh, flatten_thresh := flatten_thresh,
              smooth_size := smooth_size, size_thresh := size_thresh },
          callerMask := mask.map (List.map nanToZero) }

lemma map_nanToZero_ne_self : ∀ {m : List MVal}, MVal.nan ∈ m → m.map nanToZero ≠ m := by
  intro m
  induction m with
  | nil =>
    intro h
    cases h
  | cons a t ih =>
    intro hmem hEq
    rw [List.map_cons] at hEq
    injection hEq with h1 h2
    rcases List.mem_cons.mp hmem with ha | ht
    · rw [← ha] at h1
      cases h1
    · exact ih ht h2

/-- C4: the constructor validates the image rank first (lines 94-96): any
image whose number of dimensions is not exactly 2 fails with the shape error
(the spec's InputShapeError; the code raises a TypeError there, and the
misplaced percent-formatting in line 96 itself raises a TypeError, so a
TypeError escapes either way), while a 2-dimensional image can never fail
with the shape error, whatever else happens. -/
theorem init_shape_validation (image_shape : List ℕ) (hdr : List (String × ℚ))
    (bw st bt : ℚ) (ps : ℕ) (ft : ℚ) (ss szt gt adt : Option ℚ)
    (dist : Option ℚ) (rs : Option (ℕ × ℕ × ℕ × ℕ)) (mask : Option (List MVal)) :
    (image_shape.length ≠ 2 →
      (fil_finder_init image_shape hdr bw st bt ps ft ss szt gt adt dist rs mask).result
        = Except.error (FilErr.inputShape image_shape.length)) ∧
    (image_shape.length = 2 → ∀ d,
      (fil_finder_init image_shape hdr bw st bt ps ft ss szt gt adt dist rs mask).result
        ≠ Except.error (FilErr.inputShape d)) := by
  constructor
  · intro h
    simp [fil_finder_init, h]
  · intro h d
    unfold fil_finder_init
    rw [if_neg (by simp [h])]
    cases dist with
    | none =>
      cases hc : List.lookup CDELT2key hdr with
      | none => simp
      | some c =>
        by_cases h0 : c * 3600 = 0 <;> simp [h0]
    | some dd =>
      cases hc : List.lookup CDELT2key hdr with
      | none => simp
      | some c => simp

theorem init_shape_validation_witness :
    (fil_finder_init [5] [(CDELT2key, 1)] 1 1 1 1 1 none none none none none none
        none).result = Except.error (FilErr.inputShape 1) :=
  (init_shape_validation [5] [(CDELT2key, 1)] 1 1 1 1 1 none none none none none none
    none).1 (by decide)

/-- C5 (amended): a header without the CDELT2 scale entry is fatal in both
modes: when a distance is supplied (physical mode, line 120, the spec's
ConfigurationError) and equally when it is absent (pixel-unit mode still
resolves CDELT2 at line 117 to convert the beam width), so physical mode is
not the only metadata-related fatal condition. -/
theorem init_missing_cdelt2_fatal (image_shape : List ℕ) (hdr : List (String × ℚ))
    (bw st bt : ℚ) (ps : ℕ) (ft : ℚ) (ss szt gt adt : Option ℚ)
    (rs : Option (ℕ × ℕ × ℕ × ℕ)) (mask : Option (List MVal))
    (hshape : image_shape.length = 2) (hhdr : List.lookup CDELT2key hdr = none) :
    ∀ dist, (fil_finder_init image_shape hdr bw st bt ps ft ss szt gt adt dist rs mask).result
      = Except.error (FilErr.keyError CDELT2key) := by
  intro dist
  unfold fil_finder_init
  rw [if_neg (by simp [hshape])]
  cases dist <;> simp [hhdr]

theorem init_missing_cdelt2_fatal_witness :
    (fil_finder_init [4, 4] [] 10 5 3 2 90 none none none none (some 100) none
        none).result = Except.error (FilErr.keyError CDELT2key) :=
  init_missing_cdelt2_fatal [4, 4] [] 10 5 3 2 90 none none none none none none
    rfl rfl (some 100)

/-- C5 counterexample: with no distance supplied (so physical mode is not
requested) and a header lacking CDELT2, construction still dies on the
metadata lookup at line 117 — a missing scale in physical mode is not the
only metadata-related fatal condition. -/
theorem init_pixel_mode_metadata_cex :
    (fil_finder_init [3, 3] [] 15 10 5 8 95 none none none none none none
        none).result = Except.error (FilErr.keyError CDELT2key) := by
  rfl

/-- C6 (amended): with no distance supplied, construction succeeds in the
degraded pixel-unit mode provided the header carries a nonzero CDELT2 scale:
the image scale becomes the pixel-unit constant 1.0 (so the physically-scaled
threshold defaults that create_mask derives from it, 0.2/imgscale and so on,
come out in pixel units rather than parsecs), the beam width is converted to
pixels, and pixel_unit_flag is set. -/
theorem init_pixel_mode (image_shape : List ℕ) (hdr : List (String × ℚ))
    (bw st bt : ℚ) (ps : ℕ) (ft : ℚ) (ss szt gt adt : Option ℚ)
    (rs : Option (ℕ × ℕ × ℕ × ℕ)) (mask : Option (List MVal)) (c : ℚ)
    (hshape : image_shape.length = 2)
    (hc : List.lookup CDELT2key hdr = some c) (hc0 : c ≠ 0) :
    ∃ s, (fil_finder_init image_shape hdr bw st bt ps ft ss szt gt adt none rs mask).result
        = Except.ok s ∧
      s.imgscale = ImgScale.pixel ∧ s.pixel_unit_flag = true ∧
      s.beamwidth = BeamVal.pix (bw / (c * 3600)) ∧
      s.mask = mask.map (List.map nanToZero) := by
  unfold fil_finder_init
  rw [if_neg (by simp [hshape])]
  have h0 : ¬ c * 3600 = 0 := by
    intro h
    exact hc0 (by linarith [mul_ne_zero hc0 (show (3600:ℚ) ≠ 0 by norm_num)])
  simp only [hc, if_neg h0]
  exact ⟨_, rfl, rfl, rfl, rfl, rfl⟩

theorem init_pixel_mode_witness :
    ∃ s, (fil_finder_init [2, 2] [(CDELT2key, 1)] 7 1 1 1 1 none none none none none
        none none).result = Except.ok s ∧
      s.imgscale = ImgScale.pixel ∧ s.pixel_unit_flag = true ∧
      s.beamwidth = BeamVal.pix (7 / (1 * 3600)) ∧
      s.mask = Option.map (List.map nanToZero) none :=
  init_pixel_mode [2, 2] [(CDELT2key, 1)] 7 1 1 1 1 none none none none none none 1
    rfl rfl (by norm_num)

/-- C6 counterexample: an input with no physical-scale metadata at all —
distance absent and a header without a CDELT2 entry — does not proceed in
pixel-unit mode; line 117 reads hdr CDELT2 and construction fails instead of
succeeding. -/
theorem init_pixel_mode_cex :
    (fil_finder_init [6, 7] [(naxis1key, 512)] 9 4 2 1 80 none none none none none
        none none).result = Except.error (FilErr.keyError CDELT2key) := by
  rfl

lemma init_callerMask_eq (image_shape : List ℕ) (hdr : List (String × ℚ))
    (bw st bt : ℚ) (ps : ℕ) (ft : ℚ) (ss szt gt adt : Option ℚ)
    (dist : Option ℚ) (rs : Option (ℕ × ℕ × ℕ × ℕ)) (mask : Option (List MVal))
    (hshape : image_shape.length = 2) :
    (fil_finder_init image_shape hdr bw st bt ps ft ss szt gt adt dist rs mask).callerMask
      = mask.map (List.map nanToZero) := by
  unfold fil_finder_init
  rw [if_neg (by simp [hshape])]
  cases dist with
  | none =>
    cases hc : List.lookup CDELT2key hdr with
    | none => simp
    | some c =>
      by_cases h0 : c * 3600 = 0 <;> simp [h0]
  | some dd =>
    cases hc : List.lookup CDELT2key hdr with
    | none => simp
    | some c => simp

lemma init_stored_mask_eq (image_shape : List ℕ) (hdr : List (String × ℚ))
    (bw st bt : ℚ) (ps : ℕ) (ft : ℚ) (ss szt gt adt : Option ℚ)
    (dist : Option ℚ) (rs : Option (ℕ × ℕ × ℕ × ℕ)) (mask : Option (List MVal)) :
    ∀ s, (fil_finder_init image_shape hdr bw st bt ps ft ss szt gt adt dist rs mask).result
        = Except.ok s → s.mask = mask.map (List.map nanToZero) := by
  intro s hs
  by_cases hshape : image_shape.length = 2
  · unfold fil_finder_init at hs
    rw [if_neg (by simp [hshape])] at hs
    cases dist with
    | none =>
      cases hc : List.lookup CDELT2key hdr with
      | none =>
        simp only [hc] at hs
        cases hs
      | some c =>
        simp only [hc] at hs
        by_cases h0 : c * 3600 = 0
        · rw [if_pos h0] at hs
          cases hs
        · rw [if_neg h0] at hs
          injection hs with hs
          rw [← hs]
    | some dd =>
      cases hc : List.lookup CDELT2key hdr with
      | none =>
        simp only [hc] at hs
        cases hs
      | some c =>
        simp only [hc] at hs
        injection hs with hs
        rw [← hs]
  · unfold fil_finder_init at hs
    rw [if_pos hshape] at hs
    cases hs

/-- C8: a caller-supplied mask array is mutated in place by construction:
once the shape check passes, every NaN entry of the caller's array is
overwritten with 0.0 (line 111) before the mask is stored, the stored
`self.mask` is that same cleaned array, and whenever the array held a NaN
the caller's array really changed as a side effect. -/
theorem init_mutates_caller_mask (image_shape : List ℕ) (hdr : List (String × ℚ))
    (bw st bt : ℚ) (ps : ℕ) (ft : ℚ) (ss szt gt adt : Option ℚ)
    (dist : Option ℚ) (rs : Option (ℕ × ℕ × ℕ × ℕ)) (m : List MVal)
    (hshape : image_shape.length = 2) :
    (fil_finder_init image_shape hdr bw st bt ps ft ss szt gt adt dist rs
        (some m)).callerMask = some (m.map nanToZero) ∧
    (∀ s, (fil_finder_init image_shape hdr bw st bt ps ft ss szt gt adt dist rs
        (some m)).result = Except.ok s → s.mask = some (m.map nanToZero)) ∧
    (MVal.nan ∈ m → m.map nanToZero ≠ m) := by
  refine ⟨?_, ?_, fun hmem => map_nanToZero_ne_self hmem⟩
  · exact init_callerMask_eq image_shape hdr bw st bt ps ft ss szt gt adt dist rs
      (some m) hshape
  · intro s hs
    exact init_stored_mask_eq image_shape hdr bw st bt ps ft ss szt gt adt dist rs
      (some m) s hs

theorem init_mutates_caller_mask_witness :
    (fil_finder_init [2, 2] [(CDELT2key, 1)] 1 1 1 1 1 none none none none none none
        (some [MVal.nan, MVal.val 1])).callerMask
      = some [MVal.val 0, MVal.val 1] ∧
    [MVal.nan, MVal.val 1].map nanToZero ≠ [MVal.nan, MVal.val 1] := by
  have h := init_mutates_caller_mask [2, 2] [(CDELT2key, 1)] 1 1 1 1 1 none none none
      none none none [MVal.nan, MVal.val 1] rfl
  exact ⟨h.1, h.2.2 (by decide)⟩

/-- An answer typed at the `create_mask` rescale prompt (line 242): the words
no / n / the empty string end the loop; anything else is parsed as the new
vmax. -/
inductive RescaleAns where
  | stop
  | newVmax (q : ℚ)
deriving DecidableEq

/-- The verbose rescale loop of `create_mask` (lines 236-246): repeatedly show
the image, read an answer, and either stop or update vmax.  Returns the final
vmax and the number of reads performed.  The loop always attempts at least one
read; with an exhausted stream `raw_input` blocks waiting on stdin, counted
here as one attempted read. -/
def rescaleLoop : List RescaleAns → ℚ → ℚ × ℕ
  | [], vmax => (vmax, 1)
  | RescaleAns.stop :: _, vmax => (vmax, 1)
  | RescaleAns.newVmax q :: rest, _ =>
    ((rescaleLoop rest q).1, (rescaleLoop rest q).2 + 1)

/-- Observable interaction behaviour of one `create_mask` call. -/
structure CreateMaskRun where
  skippedPremask : Bool
  finalVmax : ℚ
  inputsRead : ℕ
deriving DecidableEq

/-- Interaction control flow of `fil_finder_2D.create_mask` (lines 200-248):
with a pre-made mask the method returns immediately (lines 200-201), before
any threshold defaulting, any segmentation call and in particular before the
verbose block; otherwise the segmentation pipeline (external skimage/scipy
collaborators, lines 220-230) runs without reading input, and only the
verbose block (lines 232-246) enters the interactive rescale loop.  `vmax0`
stands for `np.nanmax(self.image)` (line 235). -/
def create_mask (premadeMask verbose : Bool) (vmax0 : ℚ)
    (stdin : List RescaleAns) : CreateMaskRun :=
  if premadeMask then
    { skippedPremask := true, finalVmax := vmax0, inputsRead := 0 }
  else if verbose then
    { skippedPremask := false, finalVmax := (rescaleLoop stdin vmax0).1,
      inputsRead := (rescaleLoop stdin vmax0).2 }
  else
    { skippedPremask := false, finalVmax := vmax0, inputsRead := 0 }

/-- The pruning threshold used by `medskel` at line 292: the parsed prompt
answer in pixel-unit mode (2 on an empty answer, lines 286-289), the scale
default round((0.1/10.)/imgscale) in physical mode (line 291, symbolic in the
image scale), or none at all when return_distance is off. -/
inductive WThresh where
  | fromPrompt (q : ℚ)
  | physDefault (s : ImgScale)
  | noPrune
deriving DecidableEq

/-- Observable interaction behaviour of one `medskel` call. -/
structure MedskelRun where
  widthThreshold : WThresh
  inputsRead : ℕ
deriving DecidableEq

/-- Interaction control flow of `fil_finder_2D.medskel` (lines 282-294): when
the distance transform is requested and the run is in pixel-unit mode the
method prompts on stdin for a width threshold (line 286) — one blocking read,
the empty answer (stream entry none, the user hitting return) defaulting to 2
— while in physical mode the threshold comes from the image scale and nothing
is read; with return_distance off no threshold is computed and nothing is
read.  The skeletonization itself is the external skimage collaborator and
the line 292 pruning assignment is not needed by any checked property. -/
def medskel (return_distance pixel_unit_flag : Bool) (imgscale : ImgScale)
    (stdin : List (Option ℚ)) : MedskelRun :=
  if return_distance then
    if pixel_unit_flag then
      { widthThreshold := WThresh.fromPrompt ((stdin.headD none).getD 2),
        inputsRead := 1 }
    else
      { widthThreshold := WThresh.physDefault imgscale, inputsRead := 0 }
  else
    { widthThreshold := WThresh.noPrune, inputsRead := 0 }

lemma rescaleLoop_pos : ∀ (l : List RescaleAns) (v : ℚ), 1 ≤ (rescaleLoop l v).2 := by
  intro l
  induction l with
  | nil =>
    intro v
    exact le_refl 1
  | cons a rest ih =>
    intro v
    cases a with
    | stop => exact le_refl 1
    | newVmax q =>
      have := ih q
      simp only [rescaleLoop]
      omega

/-- C7 (amended): within the orchestration class the core pipeline reads
interactive input in exactly two places: `medskel` performs exactly one
blocking read iff the distance transform is requested in pixel-unit mode, and
`create_mask` reads at least once (looping until a stop answer) iff no
pre-made mask was supplied and verbose is on.  With a pre-made mask even a
verbose `create_mask` reads nothing, and a physical-mode `medskel` reads
nothing; the remaining steps are pure functions of their inputs. -/
theorem interactive_reads_characterization (rd puf premade verbose : Bool)
    (s : ImgScale) (v0 : ℚ) (stdinM : List (Option ℚ)) (stdinC : List RescaleAns) :
    ((medskel rd puf s stdinM).inputsRead = if rd && puf then 1 else 0) ∧
    (1 ≤ (create_mask premade verbose v0 stdinC).inputsRead ↔
      premade = false ∧ verbose = true) := by
  constructor
  · cases rd <;> cases puf <;> simp [medskel]
  · cases premade <;> cases verbose <;> simp [create_mask, rescaleLoop_pos]

/-- C7 counterexample: concrete configurations of the core pipeline that wait
on human input — skeletonization with the distance transform in pixel-unit
mode performs a blocking read whose answer changes the pruning threshold, and
verbose mask creation without a pre-made mask reads from the user as well. -/
theorem core_blocks_on_input :
    (medskel true true ImgScale.pixel [some 3]).inputsRead = 1 ∧
    (medskel true true ImgScale.pixel [some 3]).widthThreshold ≠
      (medskel true true ImgScale.pixel [none]).widthThreshold ∧
    (create_mask false true 5 [RescaleAns.newVmax 2, RescaleAns.stop]).inputsRead = 2 := by
  refine ⟨rfl, ?_, rfl⟩
  decide

/-- The attributes of the fil_finder_2D state that `find_widths` (lines
414-462) and its downstream consumers read or write, over an h×w pixel grid.
`width_fits` holds the Parameters and Errors entries of the fit dictionary
(line 452). -/
structure FWState (h w : ℕ) where
  lengths : List ℚ
  widths : List PyVal
  width_fits : List ℚ × List ℚ
  curvature : List ℚ
  branch_info : List ℕ × List ℚ
  number_of_filaments : ℕ
  mask : Fin h → Fin w → Bool
  skeleton : Fin h → Fin w → Bool
  medial_axis_distance : Option (Fin h → Fin w → ℚ)

/-- scipy's `nd.sum(data, labels, idx)`: the sum of `data` over the pixels
whose label is `idx`. -/
def nd_sum (h w : ℕ) (data : Fin h → Fin w → ℚ) (labels : Fin h → Fin w → ℕ)
    (idx : ℕ) : ℚ :=
  ∑ i, ∑ j, if labels i j = idx then data i j else 0

/-- A boolean grid viewed as the 0/1 float array numpy sums over. -/
def boolGrid (h w : ℕ) (g : Fin h → Fin w → Bool) : Fin h → Fin w → ℚ :=
  fun i j => if g i j then 1 else 0

/-- The fallback width estimates of `find_widths` (line 457): for each labeled
region of the whole mask, the sum of the medial-axis distance transform over
the region divided by its number of skeleton pixels,

    av_widths = nd.sum(self.medial_axis_distance, labels, range(1, n+1))
                  / nd.sum(self.skeleton, labels, range(1, n+1)).

`labels` and `nlab` stand for the output of `nd.label(self.mask, eight_con())`
(line 456, an external scipy collaborator). -/
def av_widths (h w : ℕ) (mad : Fin h → Fin w → ℚ) (skel : Fin h → Fin w → Bool)
    (labels : Fin h → Fin w → ℕ) (nlab : ℕ) : List ℚ :=
  (List.range nlab).map fun k =>
    nd_sum h w mad labels (k + 1) / nd_sum h w (boolGrid h w skel) labels (k + 1)

/-- Output of `gauss_width` (width.py, an out-of-src collaborator of
`find_widths`, line 448), taken as an opaque input: the widths list and the
fit parameter and error lists. -/
structure GaussOut where
  widths : List PyVal
  fit_params : List ℚ
  fit_errors : List ℚ

/-- State update of `fil_finder_2D.find_widths` (lines 445-462): the fit
results are stored in `self.widths` and `self.width_fits` (lines 451-452);
when a medial-axis distance transform exists, the fallback estimates
`av_widths` are computed once for the whole labeled mask (lines 455-457) but
only bound to a local variable (shown in a verbose histogram, lines 458-460)
and never assigned to any attribute.  The dead local binding is kept to
mirror the source. -/
def find_widths (h w : ℕ) (gauss : GaussOut) (labels : Fin h → Fin w → ℕ)
    (nlab : ℕ) (s : FWState h w) : FWState h w :=
  let _av := s.medial_axis_distance.map
    (fun mad => av_widths h w mad s.skeleton labels nlab)
  { s with widths := gauss.widths,
           width_fits := (gauss.fit_params, gauss.fit_errors) }

/-- The fields of the state that the downstream consumers `results` (lines
480-490) and `save_table` (lines 523-533) read. -/
def downstreamView (h w : ℕ) (s : FWState h w) :
    ℕ × List ℚ × List PyVal × List ℚ × (List ℕ × List ℚ) :=
  (s.number_of_filaments, s.lengths, s.widths, s.curvature, s.branch_info)

/-- C3 (amended): `find_widths` computes the fallback width estimate once for
the whole mask — a single `av_widths` list over the labeled regions, not a
per-filament computation — but the estimate is not made available to
downstream consumers: the updated state carries exactly the gauss-fit outputs
in `widths` and `width_fits`, every field a downstream consumer reads is
independent of the medial-axis distance transform the estimate is computed
from, and that distance transform is merely carried through unchanged. -/
theorem find_widths_fallback_scope (h w : ℕ) (gauss : GaussOut)
    (labels : Fin h → Fin w → ℕ) (nlab : ℕ) (s : FWState h w) :
    (find_widths h w gauss labels nlab s).widths = gauss.widths ∧
    (find_widths h w gauss labels nlab s).width_fits
      = (gauss.fit_params, gauss.fit_errors) ∧
    downstreamView h w (find_widths h w gauss labels nlab s)
      = (s.number_of_filaments, s.lengths, gauss.widths, s.curvature, s.branch_info) ∧
    (∀ mad, find_widths h w gauss labels nlab { s with medial_axis_distance := mad }
        = { find_widths h w gauss labels nlab s with medial_axis_distance := mad }) :=
  ⟨rfl, rfl, rfl, fun _ => rfl⟩

/-- A concrete state for the C3 counterexample: one filament whose fit failed,
on a 1×2 grid fully covered by the mask, with a one-pixel skeleton and a
medial-axis distance of 3 everywhere. -/
def exampleFWStateA : FWState 1 2 :=
  { lengths := [4], widths := [PyVal.str fitFailStr], width_fits := ([], []),
    curvature := [0], branch_info := ([1], [4]), number_of_filaments := 1,
    mask := fun _ _ => true, skeleton := fun _ j => j.val == 0,
    medial_axis_distance := some (fun _ _ => 3) }

/-- The same state with a different medial-axis distance transform. -/
def exampleFWStateB : FWState 1 2 :=
  { exampleFWStateA with medial_axis_distance := some (fun _ _ => 5) }

/-- A gauss_width output whose only fit failed. -/
def exampleGauss : GaussOut :=
  { widths := [PyVal.str fitFailStr], fit_params := [], fit_errors := [] }

/-- A labeling of the example mask: one region covering the grid. -/
def exampleLabels : Fin 1 → Fin 2 → ℕ := fun _ _ => 1

/-- C3 counterexample: two runs identical except for the medial-axis distance
transform give different fallback estimates (6 versus 10 here, so the
estimate genuinely depends on that data), yet every field read by a
downstream consumer is identical afterwards, and the failed fit stays a
failed fit instead of receiving the estimate: the fallback is computed and
discarded, not made available to downstream consumers. -/
theorem find_widths_fallback_discarded :
    av_widths 1 2 (fun _ _ => 3) (fun _ j => j.val == 0) exampleLabels 1 ≠
      av_widths 1 2 (fun _ _ => 5) (fun _ j => j.val == 0) exampleLabels 1 ∧
    downstreamView 1 2 (find_widths 1 2 exampleGauss exampleLabels 1 exampleFWStateA)
      = downstreamView 1 2 (find_widths 1 2 exampleGauss exampleLabels 1 exampleFWStateB) ∧
    (find_widths 1 2 exampleGauss exampleLabels 1 exampleFWStateA).widths
      = [PyVal.str fitFailStr] := by
  refine ⟨?_, rfl, rfl⟩
  have hcard : (Finset.filter (fun x : Fin 2 => x.val = 0) Finset.univ).card = 1 := by
    decide
  have hA : av_widths 1 2 (fun _ _ => 3) (fun _ j => j.val == 0) exampleLabels 1 = [6] := by
    norm_num [av_widths, nd_sum, boolGrid, exampleLabels, Fin.sum_univ_two,
      Fin.sum_univ_one, List.range_succ, hcard]
  have hB : av_widths 1 2 (fun _ _ => 5) (fun _ j => j.val == 0) exampleLabels 1 = [10] := by
    norm_num [av_widths, nd_sum, boolGrid, exampleLabels, Fin.sum_univ_two,
      Fin.sum_univ_one, List.range_succ, hcard]
  rw [hA, hB]
  simp
